import Mathlib

/-!
Verification development for the target / coordinate-resolution module
(`astroplan/target.py`).

The Python module is shallowly embedded below.  Numeric values carried by
astropy `Quantity`/`SkyCoord`/`Time` objects are modelled as rationals with a
unit label; the external black-box collaborators (the frame-transform engine
and the ephemeris service `get_body`) are parameters of the embedding, bundled
in the `Ext` structure.  Fallible Python code (explicit `raise` statements and
attribute accesses on `None`) is modelled with `Except Err`.
-/

namespace Astroplan

/-- A physical quantity: a rational magnitude together with a unit label
(`"deg"`, `"kpc"`, ...; `""` stands for a dimensionless value). -/
structure Quantity where
  val : ℚ
  unit : String
deriving DecidableEq, Repr

/-- An observing-site location (an opaque payload; `get_skycoord` only passes
it around, it never inspects it). -/
structure Location where
  id : String
deriving DecidableEq, Repr

/-- An `astroplan.Observer`: the only attribute `get_skycoord` reads is
`observer.location`. -/
structure Observer where
  location : Location
deriving DecidableEq, Repr

/-- An astropy `Time` value: a scalar time or a 1-d array of times.  A scalar
behaves exactly like a size-1 array in the source (`times.size`, indexing),
so both are one nonessentially-empty list of time values. -/
structure Time where
  vals : List ℚ
deriving DecidableEq, Repr

/-- `times.size`. -/
def Time.size (t : Time) : Nat := t.vals.length

/-- `times[i]`: the scalar element at index `i`.  astropy raises `IndexError`
out of bounds; `get_skycoord` only indexes when `target_size = times.size`
and the loop index is below `target_size`, so the default value is never
produced on the paths modelled here. -/
def Time.item (t : Time) (i : Nat) : Time := ⟨[t.vals.getD i 0]⟩

/-- A coordinate reference frame.  astropy's `is_equivalent_frame` holds
exactly when two frames have the same class and the same frame attributes, so
each frame value carries its identifying attributes: `altaz` its obstime and
location, and any other frame class its name together with the names of its
spherical longitude/latitude components (`frame_specific_representation_info`
for `UnitSphericalRepresentation`). -/
inductive Frame
  | icrs
  | altaz (obstime : Time) (location : Location)
  | generic (name : String) (lonName latName : String)
deriving DecidableEq, Repr

/-- The longitude/latitude component names of a frame
(`[mapping.framename for mapping in frame_specific_representation_info[UnitSphericalRepresentation]]`). -/
def Frame.reprNames : Frame → String × String
  | .icrs => ("ra", "dec")
  | .altaz _ _ => ("az", "alt")
  | .generic _ lonName latName => (lonName, latName)

/-- A scalar `SkyCoord`: a frame, the two spherical angles, and optionally a
distance.  `dist = none` models a coordinate whose `data` is a
`UnitSphericalRepresentation` (angle-only). -/
structure Coord where
  frame : Frame
  lon : Quantity
  lat : Quantity
  dist : Option Quantity
deriving DecidableEq, Repr

/-- The dimensionless distance value 1 that astropy reports as `.distance` of
a coordinate held in a `UnitSphericalRepresentation`. -/
def unitDistance : Quantity := ⟨1, ""⟩

/-- `coord.distance`: the stored distance, or dimensionless 1 for an
angle-only (unit-spherical) coordinate. -/
def Coord.distanceAttr (c : Coord) : Quantity := c.dist.getD unitDistance

/-- The Python exceptions the module can raise. -/
inductive Err
  | valueError (msg : String)
  | attributeError (msg : String)
  | notImplementedError
  | indexError
deriving DecidableEq, Repr

/-- ASCII lowercasing of one character (Python `str.lower` on the ASCII
names this module handles, which is also all that `Char.toLower` does). -/
def lowerChar (c : Char) : Char :=
  if 'A' ≤ c ∧ c ≤ 'Z' then Char.ofNat (c.toNat + 32) else c

/-- Python `name.lower()`: lowercase every character. -/
def lowerStr (s : String) : String := ⟨s.data.map lowerChar⟩

/-- `getattr(coord, name)` for the spherical angle components: returns the
longitude or latitude when `name` is the frame's corresponding component
name, and fails with `AttributeError` otherwise (e.g. `.ra` on an `AltAz`
coordinate). -/
def skyGetattr (c : Coord) (name : String) : Except Err Quantity :=
  if name = c.frame.reprNames.1 then .ok c.lon
  else if name = c.frame.reprNames.2 then .ok c.lat
  else .error (Err.attributeError ("coordinate has no attribute " ++ name))

/-- The target variants of the module.  `fixed` is `FixedTarget` (a name and
a stored `SkyCoord`); `constantElevation` is `ConstantElevationTarget` with
all of its stored-verbatim constructor fields; `solarSystem` is
`SolarSystemTarget`; `nonFixed` is the `NonFixedTarget` placeholder;
`passthrough` is a bare `SkyCoord` handed to `get_skycoord` directly (the
catch-all `else` branch of the dispatch). -/
inductive TargetItem
  | fixed (name : Option String) (coord : Coord)
  | constantElevation (alt azMin azMax : Quantity) (name : Option String)
      (ramin decc : Option Quantity) (altVar : Bool)
      (minAlt maxAlt : Option Quantity)
  | solarSystem (ephName : String) (name : Option String)
  | nonFixed
  | passthrough (coord : Coord)
deriving DecidableEq, Repr

/-- `isinstance(target, ConstantElevationTarget)`. -/
def TargetItem.isCE : TargetItem → Bool
  | .constantElevation _ _ _ _ _ _ _ _ _ => true
  | _ => false

/-- `Target.ra`: `self.coord.ra` when the target is a `FixedTarget`
(an `AttributeError` if the stored coordinate's frame has no `ra`), and
`NotImplementedError` for every other variant. -/
def TargetItem.ra : TargetItem → Except Err Quantity
  | .fixed _ c => skyGetattr c "ra"
  | _ => .error Err.notImplementedError

/-- `Target.dec`: `self.coord.dec` when the target is a `FixedTarget`, and
`NotImplementedError` for every other variant. -/
def TargetItem.dec : TargetItem → Except Err Quantity
  | .fixed _ c => skyGetattr c "dec"
  | _ => .error Err.notImplementedError

/-- The `targets` argument of `get_skycoord`: a single target-like object or
a Python list of them. -/
inductive TargetsArg
  | single (t : TargetItem)
  | list (ts : List TargetItem)
deriving DecidableEq, Repr

/-- `target_size` (source lines 310-316): `targets.size` when that attribute
exists, else `len(targets)`, else 1.  A bare `Target` has neither `.size`
nor `__len__`, so a single target yields 1; a list yields its length. -/
def TargetsArg.size : TargetsArg → Nat
  | .single _ => 1
  | .list ts => ts.length

/-- `if not isinstance(targets, list): targets = [targets]` (lines 319-320). -/
def TargetsArg.asList : TargetsArg → List TargetItem
  | .single t => [t]
  | .list ts => ts

/-- An element of the `coords` accumulator list.  The catch-all `else` branch
(line 365) appends the target object itself; for a bare `SkyCoord` that is a
coordinate, but for a `NonFixedTarget` it is a non-coordinate object whose
later attribute accesses (`.frame`, `.data`) fail. -/
inductive CoordLike
  | sky (c : Coord)
  | raw (t : TargetItem)
deriving DecidableEq, Repr

/-- Reading a `CoordLike` as a coordinate: the attribute accesses performed
by the merge step fail with `AttributeError` on a non-coordinate element. -/
def CoordLike.asSky : CoordLike → Except Err Coord
  | .sky c => .ok c
  | .raw _ => .error (Err.attributeError "object has no attribute frame")

/-- The external black-box collaborators of the module: the ephemeris service
(`astropy.coordinates.get_body`) and the frame-transform engine's conversion
to ICRS (`coordinate.icrs`). -/
structure Ext where
  get_body : String → Time → Location → Coord
  to_icrs : Coord → Coord

/-- Error-propagating map over a list (models a Python loop whose body may
raise: the first exception aborts the whole call). -/
def mapE (f : α → Except Err β) : List α → Except Err (List β)
  | [] => .ok []
  | a :: l =>
      match f a with
      | .error e => .error e
      | .ok b =>
          match mapE f l with
          | .error e => .error e
          | .ok bs => .ok (b :: bs)

/-- One iteration of the dispatch loop (source lines 328-366) for target
number `itarget`: selects the paired time (lines 329-334) and evaluates the
target, returning the coordinates appended by this iteration. -/
def evalTarget (ext : Ext) (times : Option Time) (observer : Option Observer)
    (target_size : Nat) (itarget : Nat) (target : TargetItem) :
    Except Err (List CoordLike) :=
  let time : Option Time :=
    match times with
    | none => none
    | some ts =>
        if ts.size = 1 ∨ target_size = 1 then some ts
        else some (ts.item itarget)
  match target with
  | .fixed _ c =>
      -- lines 336-342; when `target_size == 1` the replication loop reads
      -- `times.size`, which is an AttributeError when times is None
      if target_size = 1 then
        match times with
        | none => .error (Err.attributeError "NoneType object has no attribute size")
        | some ts => .ok (List.replicate ts.size (CoordLike.sky c))
      else .ok [CoordLike.sky c]
  | .constantElevation alt azMin _ _ _ _ _ _ _ =>
      -- lines 344-358
      match time with
      | none =>
          .error (Err.valueError
            "times should be given to calculate the coordinates for ConstantElevationTarget")
      | some t =>
          if t.size = 1 then
            match observer with
            | none => .error (Err.attributeError "NoneType object has no attribute location")
            | some o => .ok [CoordLike.sky ⟨Frame.altaz t o.location, azMin, alt, none⟩]
          else
            -- `for i in range(times.size)`: with an empty time array the loop
            -- body (and its `observer.location` access) never runs
            mapE (fun i =>
              match observer with
              | none => .error (Err.attributeError "NoneType object has no attribute location")
              | some o => .ok (CoordLike.sky ⟨Frame.altaz (t.item i) o.location, azMin, alt, none⟩))
              (List.range t.size)
  | .solarSystem ephName _ =>
      -- lines 359-363
      match time with
      | none =>
          .error (Err.valueError
            "times should be given to calculate the coordinates for SolarSystemTarget")
      | some t =>
          match observer with
          | none => .error (Err.attributeError "NoneType object has no attribute location")
          | some o => .ok [CoordLike.sky (ext.get_body (lowerStr ephName) t o.location)]
  | .nonFixed => .ok [CoordLike.raw .nonFixed]
  | .passthrough c => .ok [CoordLike.sky c]

/-- The dispatch loop (lines 328-366): iterate over the target list with its
loop index, concatenating the coordinates each iteration appends. -/
def collectAux (ext : Ext) (times : Option Time) (observer : Option Observer)
    (target_size : Nat) : Nat → List TargetItem → Except Err (List CoordLike)
  | _, [] => .ok []
  | i, t :: rest =>
      match evalTarget ext times observer target_size i t with
      | .error e => .error e
      | .ok cs =>
          match collectAux ext times observer target_size (i + 1) rest with
          | .error e => .error e
          | .ok more => .ok (cs ++ more)

/-- The dispatch loop started at index 0. -/
def collectCoords (ext : Ext) (times : Option Time) (observer : Option Observer)
    (target_size : Nat) (tlist : List TargetItem) : Except Err (List CoordLike) :=
  collectAux ext times observer target_size 0 tlist

/-- The result of `get_skycoord`: the final coordinate sequence, together
with a record of which return produced it — `merged = false` for the direct
`SkyCoord(coords)` return of lines 368-370, `merged = true` for the
frame-reconciliation merge of lines 372-429. -/
structure ResolveResult where
  coords : List Coord
  merged : Bool
deriving DecidableEq, Repr

/-- `SkyCoord(coords)` on a list of already-resolved coordinates (the direct
return of line 370): requires every element to be a coordinate, in one common
frame and one common representation; astropy raises `ValueError` otherwise
(and for an empty list). -/
def skyCoordOfList (cs0 : List CoordLike) : Except Err ResolveResult :=
  match mapE CoordLike.asSky cs0 with
  | .error e => .error e
  | .ok cs =>
      match cs with
      | [] => .error (Err.valueError "No coordinate data")
      | c0 :: rest =>
          if rest.all (fun c => c.frame = c0.frame ∧ c.dist.isNone = c0.dist.isNone) then
            .ok ⟨c0 :: rest, false⟩
          else .error (Err.valueError "Cannot create a SkyCoord from coordinates in different frames")

/-- Zip a frame and three component lists into coordinates, the way
`SkyCoord(longitudes, latitudes, distances, frame=frame)` assembles its
elements (the lists built by the merge always have equal length). -/
def zip3Coord (frame : Frame) : List Quantity → List Quantity → List (Option Quantity) → List Coord
  | lo :: los, la :: las, d :: ds => ⟨frame, lo, la, d⟩ :: zip3Coord frame los las ds
  | _, _, _ => []

/-- Lines 416-429: build the final sequence from the collected component
lists.  `unitFlags` is `targets_is_unitsphericalrep`; in the mixed case every
collected distance equal to the dimensionless 1 (the `.distance` of a
unit-spherical coordinate) is replaced by the 100 kpc sentinel. -/
def assembleMerged (frame : Frame) (lons lats : List Quantity)
    (dists : List Quantity) (unitFlags : List Bool) : List Coord :=
  if unitFlags.all (fun b => b) then
    List.zipWith (fun lo la => ⟨frame, lo, la, none⟩) lons lats
  else if ¬ unitFlags.any (fun b => b) then
    zip3Coord frame lons lats (dists.map some)
  else
    zip3Coord frame lons lats
      ((dists.map (fun d => if d = unitDistance then ⟨100, "kpc"⟩ else d)).map some)

/-- Whether the merge must convert to ICRS (lines 375-376): true when not
all coordinates are in a frame equivalent to the first one's. -/
def mergeConvert : List Coord → Bool
  | [] => false
  | c0 :: rest => ¬ rest.all (fun c => c.frame = c0.frame)

/-- The frame-reconciliation merge, lines 372-429, on a list of coordinates.
(`np.array(coords).squeeze().tolist()` of line 372 is the identity on the
lists of scalar coordinates that reach this point: as traced in the theorems
below the merge is only ever entered with at least two elements, and
`coords[0]` on an empty list is an `IndexError`.) -/
def mergeSky (to_icrs : Coord → Coord) (coords : List Coord) : Except Err (List Coord) :=
  match coords with
  | [] => .error Err.indexError
  | c0 :: rest =>
      let convert_to_icrs := mergeConvert (c0 :: rest)
      let unitFlags := (c0 :: rest).map (fun c => c.dist.isNone)
      let get_distances := ¬ unitFlags.all (fun b => b)
      if convert_to_icrs then
        -- lines 387-395: convert everything to ICRS and read ra/dec/distance
        let ics := (c0 :: rest).map to_icrs
        match mapE (fun c => skyGetattr c "ra") ics with
        | .error e => .error e
        | .ok longitudes =>
            match mapE (fun c => skyGetattr c "dec") ics with
            | .error e => .error e
            | .ok latitudes =>
                let distances := if get_distances then ics.map Coord.distanceAttr else []
                .ok (assembleMerged Frame.icrs longitudes latitudes distances unitFlags)
      else
        -- lines 396-412: all frames equivalent; component names from coords[0]
        let lonName := c0.frame.reprNames.1
        let latName := c0.frame.reprNames.2
        match mapE (fun c => skyGetattr c lonName) (c0 :: rest) with
        | .error e => .error e
        | .ok longitudes =>
            match mapE (fun c => skyGetattr c latName) (c0 :: rest) with
            | .error e => .error e
            | .ok latitudes =>
                let distances :=
                  if get_distances then (c0 :: rest).map Coord.distanceAttr else []
                .ok (assembleMerged c0.frame longitudes latitudes distances unitFlags)

/-- The merge step applied to the raw accumulator list: the attribute reads
fail on any non-coordinate element appended by the catch-all branch. -/
def mergeCoords (to_icrs : Coord → Coord) (raws : List CoordLike) : Except Err (List Coord) :=
  match mapE CoordLike.asSky raws with
  | .error e => .error e
  | .ok cs => mergeSky to_icrs cs

/-- `get_skycoord` after the broadcast-size check: the dispatch loop
(lines 326-366), the direct return (lines 368-370) and the merge
(lines 372-429). -/
def getSkycoordCore (ext : Ext) (targets : TargetsArg) (times : Option Time)
    (observer : Option Observer) : Except Err ResolveResult :=
  let target_size := targets.size
  let tlist := targets.asList
  match collectCoords ext times observer target_size tlist with
  | .error e => .error e
  | .ok coords =>
      if target_size = 1 then
        match tlist with
        | [] => .error Err.indexError   -- targets[0]; unreachable when target_size = 1
        | t0 :: _ =>
            if ¬ t0.isCE then skyCoordOfList coords
            else
              match times with
              | none => .error (Err.attributeError "NoneType object has no attribute size")
              | some ts =>
                  if ts.size = 1 then skyCoordOfList coords
                  else
                    match mergeCoords ext.to_icrs coords with
                    | .error e => .error e
                    | .ok m => .ok ⟨m, true⟩
      else
        match mergeCoords ext.to_icrs coords with
        | .error e => .error e
        | .ok m => .ok ⟨m, true⟩

/-- The broadcast-mismatch message of line 324 (verbatim from the source). -/
def broadcastMsg : String :=
  "Either targets or times should be scalor, or the lengths of two lists should match"

/-- `get_skycoord(targets, times=None, observer=None)` (source lines
276-429): the broadcast-size check of lines 322-324 followed by the
dispatch / direct-return / merge pipeline. -/
def get_skycoord (ext : Ext) (targets : TargetsArg) (times : Option Time)
    (observer : Option Observer) : Except Err ResolveResult :=
  match times with
  | some ts =>
      if targets.size ≠ 1 ∧ ts.size ≠ 1 ∧ targets.size ≠ ts.size then
        .error (Err.valueError broadcastMsg)
      else getSkycoordCore ext targets times observer
  | none => getSkycoordCore ext targets times observer

/-- The star table of `FixedTarget._from_name_mock` (source lines 168-178);
keys are stored lowercase. -/
def mockStars : List (String × Quantity × Quantity) :=
  [("rigel", ⟨78.63446707, "deg"⟩, ⟨-8.20163837, "deg"⟩),
   ("sirius", ⟨101.28715533, "deg"⟩, ⟨-16.71611586, "deg"⟩),
   ("vega", ⟨279.23473479, "deg"⟩, ⟨38.78368896, "deg"⟩),
   ("aldebaran", ⟨68.98016279, "deg"⟩, ⟨16.50930235, "deg"⟩),
   ("polaris", ⟨37.95456067, "deg"⟩, ⟨89.26410897, "deg"⟩),
   ("deneb", ⟨310.35797975, "deg"⟩, ⟨45.28033881, "deg"⟩),
   ("m13", ⟨250.423475, "deg"⟩, ⟨36.4613194, "deg"⟩),
   ("altair", ⟨297.6958273, "deg"⟩, ⟨8.8683212, "deg"⟩),
   ("hd 209458", ⟨330.79, "deg"⟩, ⟨18.88, "deg"⟩)]

/-- `FixedTarget._from_name_mock` (lines 161-185): look the lowercased query
name up in the table; on a hit return a `FixedTarget` whose name is the query
name and whose coordinate is the table entry (an ICRS unit-spherical
`SkyCoord(ra=..., dec=...)`), otherwise raise `ValueError`. -/
def from_name_mock (query_name : String) : Except Err TargetItem :=
  match mockStars.find? (fun p => p.1 = lowerStr query_name) with
  | some p => .ok (.fixed (some query_name) ⟨Frame.icrs, p.2.1, p.2.2, none⟩)
  | none =>
      .error (Err.valueError
        ("Target named " ++ query_name ++ " not in mocked FixedTarget method"))

/-- The explicit missing-input `ValueError`s the source raises (the
`MissingInput` entries of the specification's error taxonomy): the two
absent-`times` checks of lines 345-346 and 360-361; the source contains no
corresponding check for an absent observer. -/
def Err.isMissingInput : Err → Prop
  | .valueError msg =>
      msg = "times should be given to calculate the coordinates for ConstantElevationTarget" ∨
      msg = "times should be given to calculate the coordinates for SolarSystemTarget"
  | _ => False

/-- The scalar per-pair evaluation of one target with one already-selected
scalar time `tmi`: exactly what one iteration of the dispatch loop appends in
the element-wise case `T = S > 1` (where the selected time `times[itarget]`
is scalar). -/
def pairEval (ext : Ext) (observer : Option Observer) (target : TargetItem)
    (tmi : Time) : Except Err CoordLike :=
  match target with
  | .fixed _ c => .ok (.sky c)
  | .constantElevation alt azMin _ _ _ _ _ _ _ =>
      match observer with
      | none => .error (Err.attributeError "NoneType object has no attribute location")
      | some o => .ok (.sky ⟨Frame.altaz tmi o.location, azMin, alt, none⟩)
  | .solarSystem ephName _ =>
      match observer with
      | none => .error (Err.attributeError "NoneType object has no attribute location")
      | some o => .ok (.sky (ext.get_body (lowerStr ephName) tmi o.location))
  | .nonFixed => .ok (.raw .nonFixed)
  | .passthrough c => .ok (.sky c)

/-- The index-paired evaluation list: target number `i` evaluated with time
element number `i`, one result per target.  This is the element-wise pairing
the specification describes; the theorems below relate it to the dispatch
loop. -/
def pairListAux (ext : Ext) (observer : Option Observer) (tm : Time) :
    Nat → List TargetItem → Except Err (List CoordLike)
  | _, [] => .ok []
  | i, t :: rest =>
      match pairEval ext observer t (tm.item i) with
      | .error e => .error e
      | .ok c =>
          match pairListAux ext observer tm (i + 1) rest with
          | .error e => .error e
          | .ok more => .ok (c :: more)

/-- Concrete instantiation of the external services, used to evaluate the
embedding at specific inputs (the numeric content of the black-box transforms
does not matter to any property evaluated at it): the ephemeris service
returns a distance-bearing coordinate in a body-tagged frame and the ICRS
conversion retags the frame. -/
def extDefault : Ext where
  get_body := fun nm _tm _loc =>
    ⟨Frame.generic ("gcrs:" ++ nm) "ra" "dec", ⟨1, "deg"⟩, ⟨2, "deg"⟩, some ⟨1, "au"⟩⟩
  to_icrs := fun c => { c with frame := Frame.icrs }

/-- A unit-spherical ICRS coordinate. -/
def coordA : Coord := ⟨Frame.icrs, ⟨10, "deg"⟩, ⟨20, "deg"⟩, none⟩

/-- A unit-spherical coordinate in a non-ICRS frame. -/
def coordB : Coord := ⟨Frame.generic "galactic" "l" "b", ⟨30, "deg"⟩, ⟨40, "deg"⟩, none⟩

/-- A distance-bearing ICRS coordinate. -/
def coordD : Coord := ⟨Frame.icrs, ⟨5, "deg"⟩, ⟨6, "deg"⟩, some ⟨2, "kpc"⟩⟩

/-- A concrete `ConstantElevationTarget`. -/
def ceTargetA : TargetItem :=
  .constantElevation ⟨45, "deg"⟩ ⟨10, "deg"⟩ ⟨20, "deg"⟩ none none none false none none

/-- A concrete observer. -/
def obsA : Observer := ⟨⟨"cerro chajnantor"⟩⟩

/-- A size-1 time. -/
def time1 : Time := ⟨[0]⟩

/-- A size-2 time array. -/
def time2 : Time := ⟨[1, 2]⟩

/-- A size-5 time array. -/
def time5 : Time := ⟨[1, 2, 3, 4, 5]⟩

/-! ## General lemmas about the embedding's combinators -/

theorem mapE_ok_of_forall {f : α → Except Err β} {g : α → β} :
    ∀ {l : List α}, (∀ a ∈ l, f a = .ok (g a)) → mapE f l = .ok (l.map g) := by
  intro l
  induction l with
  | nil => intro _; rfl
  | cons a l ih =>
      intro h
      have ha := h a (List.mem_cons_self a l)
      have hl := ih (fun x hx => h x (List.mem_cons_of_mem a hx))
      simp [mapE, ha, hl]

theorem mapE_length {f : α → Except Err β} :
    ∀ {l : List α} {out : List β}, mapE f l = .ok out → out.length = l.length := by
  intro l
  induction l with
  | nil => intro out h; simp [mapE] at h; simp [← h]
  | cons a l ih =>
      intro out h
      unfold mapE at h
      cases hfa : f a with
      | error e => rw [hfa] at h; exact absurd h (by simp)
      | ok b =>
          rw [hfa] at h
          cases hrest : mapE f l with
          | error e => rw [hrest] at h; exact absurd h (by simp)
          | ok bs =>
              rw [hrest] at h
              simp only [Except.ok.injEq] at h
              subst h
              simp [ih hrest]

theorem zip3Coord_map3 (frame : Frame) (f1 f2 : α → Quantity) (f3 : α → Option Quantity) :
    ∀ (l : List α),
      zip3Coord frame (l.map f1) (l.map f2) (l.map f3) =
        l.map (fun x => ⟨frame, f1 x, f2 x, f3 x⟩) := by
  intro l
  induction l with
  | nil => rfl
  | cons a l ih => simp [zip3Coord, ih]

theorem zip3Coord_length (frame : Frame) :
    ∀ (a b : List Quantity) (c : List (Option Quantity)),
      (zip3Coord frame a b c).length = min a.length (min b.length c.length) := by
  intro a
  induction a with
  | nil => intro b c; cases b <;> cases c <;> simp [zip3Coord]
  | cons x a ih =>
      intro b c
      cases b with
      | nil => cases c <;> simp [zip3Coord]
      | cons y b =>
          cases c with
          | nil => simp [zip3Coord]
          | cons z c =>
              simp [zip3Coord, ih, Nat.succ_min_succ]

theorem assembleMerged_length (frame : Frame) (lons lats : List Quantity)
    (dists : List Quantity) (unitFlags : List Bool) (n : Nat)
    (h1 : lons.length = n) (h2 : lats.length = n)
    (h3 : unitFlags.all (fun b => b) = true ∨ dists.length = n) :
    (assembleMerged frame lons lats dists unitFlags).length = n := by
  unfold assembleMerged
  rcases h3 with h3 | h3
  · simp [h3, h1, h2]
  · split
    · simp [h1, h2]
    · split <;> simp [zip3Coord_length, h1, h2, h3]

theorem mergeSky_length (to_icrs : Coord → Coord) (coords : List Coord)
    (out : List Coord) (h : mergeSky to_icrs coords = .ok out) :
    out.length = coords.length := by
  unfold mergeSky at h
  cases coords with
  | nil => exact absurd h (by simp)
  | cons c0 rest =>
      simp only at h
      split at h
      · -- convert-to-ICRS branch
        cases hlon : mapE (fun c => skyGetattr c "ra") ((c0 :: rest).map to_icrs) with
        | error e => rw [hlon] at h; exact absurd h (by simp)
        | ok longitudes =>
            rw [hlon] at h
            cases hlat : mapE (fun c => skyGetattr c "dec") ((c0 :: rest).map to_icrs) with
            | error e => rw [hlat] at h; exact absurd h (by simp)
            | ok latitudes =>
                rw [hlat] at h
                simp only [Except.ok.injEq] at h
                subst h
                have l1 : longitudes.length = (c0 :: rest).length := by
                  have := mapE_length hlon; simpa using this
                have l2 : latitudes.length = (c0 :: rest).length := by
                  have := mapE_length hlat; simpa using this
                refine assembleMerged_length _ _ _ _ _ _ l1 l2 ?_
                by_cases hall :
                    (((c0 :: rest).map (fun c => c.dist.isNone)).all (fun b => b)) = true
                · exact Or.inl hall
                · right
                  rw [if_pos hall]
                  simp
      · -- same-frame branch
        cases hlon : mapE (fun c => skyGetattr c c0.frame.reprNames.1) (c0 :: rest) with
        | error e => rw [hlon] at h; exact absurd h (by simp)
        | ok longitudes =>
            rw [hlon] at h
            cases hlat : mapE (fun c => skyGetattr c c0.frame.reprNames.2) (c0 :: rest) with
            | error e => rw [hlat] at h; exact absurd h (by simp)
            | ok latitudes =>
                rw [hlat] at h
                simp only [Except.ok.injEq] at h
                subst h
                have l1 : longitudes.length = (c0 :: rest).length := mapE_length hlon
                have l2 : latitudes.length = (c0 :: rest).length := mapE_length hlat
                refine assembleMerged_length _ _ _ _ _ _ l1 l2 ?_
                by_cases hall :
                    (((c0 :: rest).map (fun c => c.dist.isNone)).all (fun b => b)) = true
                · exact Or.inl hall
                · right
                  rw [if_pos hall]
                  simp

theorem mergeCoords_length (to_icrs : Coord → Coord) (raws : List CoordLike)
    (out : List Coord) (h : mergeCoords to_icrs raws = .ok out) :
    out.length = raws.length := by
  unfold mergeCoords at h
  cases hsky : mapE CoordLike.asSky raws with
  | error e => rw [hsky] at h; exact absurd h (by simp)
  | ok cs =>
      rw [hsky] at h
      have := mergeSky_length to_icrs cs out h
      rw [this, mapE_length hsky]

theorem skyCoordOfList_merged_eq_false (l : List CoordLike) (r : ResolveResult)
    (h : skyCoordOfList l = .ok r) : r.merged = false := by
  unfold skyCoordOfList at h
  split at h
  · exact absurd h (by simp)
  · split at h
    · exact absurd h (by simp)
    · split at h
      · simp only [Except.ok.injEq] at h
        rw [← h]
      · exact absurd h (by simp)

/-! ## Claim C1 -/

/-- C1: the claim says resolving a single `FixedSkyTarget` with `times`
absent succeeds and returns the stored position unchanged, and the
function's own docstring agrees (`times ... can be None only when all
targets are FixedTargets`).  The code instead crashes: with `target_size
== 1` the replication loop of line 339 evaluates `times.size` on `None`,
an `AttributeError`.  This theorem evaluates the code at the failing
input: for every stored coordinate the call returns that error and no
result. -/
theorem c1_single_fixed_no_times_crashes (ext : Ext) (name : Option String)
    (c : Coord) (observer : Option Observer) :
    get_skycoord ext (.single (.fixed name c)) none observer =
      .error (Err.attributeError "NoneType object has no attribute size") := rfl

/-! ## Claim C2 -/

/-- C2: for every targets list of size `T` and times array of size `S` with
`T ≠ 1`, `S ≠ 1` and `T ≠ S`, `get_skycoord` fails with the broadcast-
mismatch `ValueError` of line 324 and produces no result. -/
theorem c2_broadcast_mismatch (ext : Ext) (ts : List TargetItem) (tm : Time)
    (observer : Option Observer)
    (h1 : ts.length ≠ 1) (h2 : tm.size ≠ 1) (h3 : ts.length ≠ tm.size) :
    get_skycoord ext (.list ts) (some tm) observer =
      .error (Err.valueError broadcastMsg) := by
  unfold get_skycoord
  simp [TargetsArg.size, h1, h2, h3]

/-- Witness for C2 at `T = 3`, `S = 5`. -/
theorem c2_broadcast_mismatch_witness :
    ([TargetItem.fixed none coordA, TargetItem.fixed none coordA,
        TargetItem.fixed none coordA].length ≠ 1 ∧
      time5.size ≠ 1 ∧
      [TargetItem.fixed none coordA, TargetItem.fixed none coordA,
        TargetItem.fixed none coordA].length ≠ time5.size) ∧
    get_skycoord extDefault
        (.list [TargetItem.fixed none coordA, TargetItem.fixed none coordA,
          TargetItem.fixed none coordA]) (some time5) none =
      .error (Err.valueError broadcastMsg) :=
  ⟨⟨by decide, by decide, by decide⟩,
    c2_broadcast_mismatch extDefault _ time5 none (by decide) (by decide) (by decide)⟩

/-! ## Claim C4 -/

/-- C4: every `ConstantElevationTarget` and every `SolarSystemTarget`
evaluated through `get_skycoord` with `times = None` fails with the
explicit missing-times `ValueError` (lines 345-346 and 360-361) — the
`MissingInput` error of the specification's taxonomy. -/
theorem c4_missing_times (ext : Ext) (observer : Option Observer)
    (alt azMin azMax : Quantity) (nm : Option String)
    (ramin decc : Option Quantity) (av : Bool) (mna mxa : Option Quantity)
    (eph : String) (nm2 : Option String) :
    (get_skycoord ext
        (.single (.constantElevation alt azMin azMax nm ramin decc av mna mxa))
        none observer =
      .error (Err.valueError
        "times should be given to calculate the coordinates for ConstantElevationTarget")) ∧
    ((get_skycoord ext (.single (.solarSystem eph nm2)) none observer =
      .error (Err.valueError
        "times should be given to calculate the coordinates for SolarSystemTarget")) ∧
     Err.isMissingInput (Err.valueError
        "times should be given to calculate the coordinates for ConstantElevationTarget") ∧
     Err.isMissingInput (Err.valueError
        "times should be given to calculate the coordinates for SolarSystemTarget")) :=
  ⟨rfl, rfl, Or.inl rfl, Or.inr rfl⟩

/-! ## Claim C8 -/

/-- C8: the `Target.ra` / `Target.dec` accessors return the stored
coordinate's corresponding angles for a `FixedTarget` (whose coordinate
exposes `ra`/`dec` components), and fail with `NotImplementedError` — the
specification's `NotSupported` — on every other target variant
(`NonFixedTarget`, `ConstantElevationTarget`, `SolarSystemTarget`). -/
theorem c8_ra_dec_accessors (nm : Option String) (c : Coord)
    (h : c.frame.reprNames = ("ra", "dec"))
    (alt azMin azMax : Quantity) (nm1 : Option String)
    (ramin decc : Option Quantity) (av : Bool) (mna mxa : Option Quantity)
    (eph : String) (nm2 : Option String) :
    ((TargetItem.fixed nm c).ra = .ok c.lon ∧
     (TargetItem.fixed nm c).dec = .ok c.lat) ∧
    (TargetItem.nonFixed.ra = .error Err.notImplementedError ∧
     TargetItem.nonFixed.dec = .error Err.notImplementedError) ∧
    ((TargetItem.constantElevation alt azMin azMax nm1 ramin decc av mna mxa).ra =
        .error Err.notImplementedError ∧
     (TargetItem.constantElevation alt azMin azMax nm1 ramin decc av mna mxa).dec =
        .error Err.notImplementedError) ∧
    ((TargetItem.solarSystem eph nm2).ra = .error Err.notImplementedError ∧
     (TargetItem.solarSystem eph nm2).dec = .error Err.notImplementedError) := by
  refine ⟨⟨?_, ?_⟩, ⟨rfl, rfl⟩, ⟨rfl, rfl⟩, ⟨rfl, rfl⟩⟩
  · simp [TargetItem.ra, skyGetattr, h]
  · simp [TargetItem.dec, skyGetattr, h]

/-- Witness for C8 at an ICRS-frame fixed target. -/
theorem c8_ra_dec_accessors_witness :
    coordA.frame.reprNames = ("ra", "dec") ∧
    ((TargetItem.fixed (some "a") coordA).ra = .ok coordA.lon ∧
     (TargetItem.fixed (some "a") coordA).dec = .ok coordA.lat) ∧
    (TargetItem.solarSystem "moon" none).ra = .error Err.notImplementedError :=
  ⟨rfl,
   (c8_ra_dec_accessors (some "a") coordA rfl ⟨45, "deg"⟩ ⟨10, "deg"⟩ ⟨20, "deg"⟩
      none none none false none none "moon" none).1,
   (c8_ra_dec_accessors (some "a") coordA rfl ⟨45, "deg"⟩ ⟨10, "deg"⟩ ⟨20, "deg"⟩
      none none none false none none "moon" none).2.2.2.1⟩

/-! ## Claim C9 -/

/-- C9: `FixedTarget._from_name_mock` looks the lowercased query name up in
the fixed star table: every query whose lowercase form is a table key (so
any letter case of a table name) yields a `FixedTarget` carrying that
entry's coordinates, and every other query fails with the not-found
`ValueError` of lines 184-185.  The last conjunct instantiates the hit case
at the `vega` entry with its literal table coordinates. -/
theorem c9_mock_name_lookup (q : String) :
    (∀ e, mockStars.find? (fun p => p.1 = lowerStr q) = some e →
      from_name_mock q = .ok (.fixed (some q) ⟨Frame.icrs, e.2.1, e.2.2, none⟩)) ∧
    (mockStars.find? (fun p => p.1 = lowerStr q) = none →
      from_name_mock q =
        .error (Err.valueError
          ("Target named " ++ q ++ " not in mocked FixedTarget method"))) ∧
    (lowerStr q = "vega" →
      from_name_mock q = .ok (.fixed (some q)
        ⟨Frame.icrs, ⟨279.23473479, "deg"⟩, ⟨38.78368896, "deg"⟩, none⟩)) := by
  refine ⟨?_, ?_, ?_⟩
  · intro e he
    simp only [from_name_mock, he]
  · intro he
    simp only [from_name_mock, he]
  · intro hq
    simp only [from_name_mock, hq]
    rfl

/-- Witness for C9: an uppercase in-table query and an out-of-table query. -/
theorem c9_mock_name_lookup_witness :
    (lowerStr "VEGA" = "vega" ∧
      from_name_mock "VEGA" = .ok (.fixed (some "VEGA")
        ⟨Frame.icrs, ⟨279.23473479, "deg"⟩, ⟨38.78368896, "deg"⟩, none⟩)) ∧
    (mockStars.find? (fun p => p.1 = lowerStr "Betelgeuse") = none ∧
      from_name_mock "Betelgeuse" =
        .error (Err.valueError
          "Target named Betelgeuse not in mocked FixedTarget method")) :=
  ⟨⟨by decide, (c9_mock_name_lookup "VEGA").2.2 (by decide)⟩,
   ⟨by decide, (c9_mock_name_lookup "Betelgeuse").2.1 (by decide)⟩⟩

/-! ## Claim C10 -/

/-- C10: `get_skycoord` lowercases the stored ephemeris body identifier
before querying the ephemeris service (line 362): two `SolarSystemTarget`s
whose `eph_name`s agree up to letter case resolve identically for every
ephemeris service, and with a time and observer present the single-target
result is exactly the service's answer at the lowercased body id. -/
theorem c10_eph_name_lowercased (ext : Ext) (times : Option Time)
    (observer : Option Observer) (e1 e2 : String) (n1 n2 : Option String)
    (h : lowerStr e1 = lowerStr e2) :
    (get_skycoord ext (.single (.solarSystem e1 n1)) times observer =
      get_skycoord ext (.single (.solarSystem e2 n2)) times observer) ∧
    (∀ tm o, get_skycoord ext (.single (.solarSystem e1 n1)) (some tm) (some o) =
      .ok ⟨[ext.get_body (lowerStr e1) tm o.location], false⟩) := by
  have hev : ∀ tms obs n i,
      evalTarget ext tms obs n i (.solarSystem e1 n1) =
        evalTarget ext tms obs n i (.solarSystem e2 n2) := by
    intro tms obs n i
    simp only [evalTarget, h]
  constructor
  · have hcore : ∀ tms,
        getSkycoordCore ext (.single (.solarSystem e1 n1)) tms observer =
          getSkycoordCore ext (.single (.solarSystem e2 n2)) tms observer := by
      intro tms
      simp only [getSkycoordCore, TargetsArg.size, TargetsArg.asList,
        collectCoords, collectAux, hev, TargetItem.isCE]
    cases times with
    | none => simpa [get_skycoord] using hcore none
    | some tms => simp [get_skycoord, TargetsArg.size, hcore (some tms)]
  · intro tm o
    simp [get_skycoord, getSkycoordCore, TargetsArg.size, TargetsArg.asList,
      collectCoords, collectAux, evalTarget, TargetItem.isCE, skyCoordOfList,
      mapE, CoordLike.asSky]

/-- Witness for C10: the same call with body id `"Moon"` and `"MOON"`. -/
theorem c10_eph_name_lowercased_witness :
    lowerStr "Moon" = lowerStr "MOON" ∧
    get_skycoord extDefault (.single (.solarSystem "Moon" none)) (some time1) (some obsA) =
      get_skycoord extDefault (.single (.solarSystem "MOON" none)) (some time1) (some obsA) :=
  ⟨by decide, (c10_eph_name_lowercased extDefault (some time1) (some obsA)
      "Moon" "MOON" none none (by decide)).1⟩

/-! ## Claim C5 -/

/-- C5 counterexample: a call whose single target is a
`ConstantElevationTarget` (which needs on-demand evaluation), with a time
present and the observer absent.  The call fails — but with the
`AttributeError` raised by dereferencing `observer.location` on `None`
(line 350), not with the explicit missing-input `ValueError` that the
source reserves for an absent `times`; the source performs no observer
check at all.  So the claim's "fails with MissingInput" does not hold as
stated. -/
theorem c5_counterexample :
    get_skycoord extDefault (.single ceTargetA) (some time1) none =
      .error (Err.attributeError "NoneType object has no attribute location") ∧
    ¬ (Err.attributeError "NoneType object has no attribute location").isMissingInput :=
  ⟨rfl, fun h => h⟩

/-- C5 amended: when a `ConstantElevationTarget` or `SolarSystemTarget` is
resolved with a (nonempty) time present but the observer absent, the call
still fails and produces no result — but through an `AttributeError` on the
absent observer rather than through an explicit `MissingInput` validation
error (an absent `times` is still reported by the explicit missing-times
`ValueError`, claim C4). -/
theorem c5_amended_observer_attribute_error (ext : Ext) (tm : Time)
    (hne : tm.vals ≠ [])
    (alt azMin azMax : Quantity) (nm : Option String)
    (ramin decc : Option Quantity) (av : Bool) (mna mxa : Option Quantity)
    (eph : String) (nm2 : Option String) :
    (get_skycoord ext
        (.single (.constantElevation alt azMin azMax nm ramin decc av mna mxa))
        (some tm) none =
      .error (Err.attributeError "NoneType object has no attribute location")) ∧
    (get_skycoord ext (.single (.solarSystem eph nm2)) (some tm) none =
      .error (Err.attributeError "NoneType object has no attribute location")) := by
  have hpos : tm.size ≠ 0 := by
    intro h0
    exact hne (List.length_eq_zero.mp h0)
  constructor
  · by_cases hsz : tm.size = 1
    · simp [get_skycoord, getSkycoordCore, TargetsArg.size, TargetsArg.asList,
        collectCoords, collectAux, evalTarget, hsz]
    · obtain ⟨k, hk⟩ := Nat.exists_eq_succ_of_ne_zero hpos
      simp [get_skycoord, getSkycoordCore, TargetsArg.size, TargetsArg.asList,
        collectCoords, collectAux, evalTarget, hsz, hk,
        List.range_succ_eq_map, mapE]
  · simp [get_skycoord, getSkycoordCore, TargetsArg.size, TargetsArg.asList,
      collectCoords, collectAux, evalTarget]

/-- Witness for the amended C5 at a concrete target, time and (absent)
observer. -/
theorem c5_amended_observer_attribute_error_witness :
    time1.vals ≠ [] ∧
    (get_skycoord extDefault
        (.single (.constantElevation ⟨45, "deg"⟩ ⟨10, "deg"⟩ ⟨20, "deg"⟩
          none none none false none none))
        (some time1) none =
      .error (Err.attributeError "NoneType object has no attribute location")) ∧
    (get_skycoord extDefault (.single (.solarSystem "moon" none)) (some time1) none =
      .error (Err.attributeError "NoneType object has no attribute location")) :=
  ⟨by decide,
   (c5_amended_observer_attribute_error extDefault time1 (by decide)
     ⟨45, "deg"⟩ ⟨10, "deg"⟩ ⟨20, "deg"⟩ none none none false none none
     "moon" none).1,
   (c5_amended_observer_attribute_error extDefault time1 (by decide)
     ⟨45, "deg"⟩ ⟨10, "deg"⟩ ⟨20, "deg"⟩ none none none false none none
     "moon" none).2⟩

/-! ## Claim C6 -/

/-- C6 counterexample: two fixed targets in different frames with a size-1
times array (`T = 2`, `S = 1`).  The claim says a size-1 `times` alone
triggers the direct no-merge return, but the code's fast path (line 368)
additionally requires `target_size == 1`: here the merge runs
(`merged = true`) and performs frame reconciliation — the second element
comes back converted to the ICRS frame although its input frame was not
ICRS. -/
theorem c6_counterexample :
    (get_skycoord extDefault (.list [.fixed none coordA, .fixed none coordB])
        (some time1) none =
      .ok ⟨[⟨Frame.icrs, ⟨10, "deg"⟩, ⟨20, "deg"⟩, none⟩,
            ⟨Frame.icrs, ⟨30, "deg"⟩, ⟨40, "deg"⟩, none⟩], true⟩) ∧
    coordB.frame ≠ Frame.icrs :=
  ⟨rfl, by decide⟩

/-- C6 amended: the direct (no-merge) return happens only when the targets
argument has size 1 — then either the single target is not a
`ConstantElevationTarget`, or `times` has size 1.  When `T ≠ 1` every
successful call goes through the frame-reconciliation merge, even with
`S = 1`; and with `T = 1`, a `ConstantElevationTarget` with a larger times
array also merges. -/
theorem c6_amended_fast_path_requires_single_target (ext : Ext)
    (targets : TargetsArg) (times : Option Time) (observer : Option Observer)
    (r : ResolveResult)
    (hok : get_skycoord ext targets times observer = .ok r) :
    (targets.size ≠ 1 → r.merged = true) ∧
    (∀ t0 rest, targets.asList = t0 :: rest → targets.size = 1 →
      ((t0.isCE = false → r.merged = false) ∧
       (∀ ts, times = some ts → ts.size = 1 → r.merged = false) ∧
       (t0.isCE = true → ∀ ts, times = some ts → ts.size ≠ 1 →
          r.merged = true))) := by
  have hcore : getSkycoordCore ext targets times observer = .ok r := by
    cases times with
    | none => exact hok
    | some ts =>
        unfold get_skycoord at hok
        dsimp only at hok
        by_cases hb : targets.size ≠ 1 ∧ ts.size ≠ 1 ∧ targets.size ≠ ts.size
        · rw [if_pos hb] at hok
          exact absurd hok (by simp)
        · rw [if_neg hb] at hok
          exact hok
  unfold getSkycoordCore at hcore
  dsimp only at hcore
  cases hcol : collectCoords ext times observer targets.size targets.asList with
  | error e =>
      rw [hcol] at hcore
      exact absurd hcore (by simp)
  | ok coords =>
      rw [hcol] at hcore
      dsimp only at hcore
      constructor
      · intro hT
        rw [if_neg hT] at hcore
        cases hm : mergeCoords ext.to_icrs coords with
        | error e => rw [hm] at hcore; exact absurd hcore (by simp)
        | ok m =>
            rw [hm] at hcore
            simp only [Except.ok.injEq] at hcore
            rw [← hcore]
      · intro t0 rest hlist hT1
        rw [if_pos hT1, hlist] at hcore
        dsimp only at hcore
        refine ⟨?_, ?_, ?_⟩
        · intro hce
          rw [hce] at hcore
          rw [if_pos (by simp)] at hcore
          exact skyCoordOfList_merged_eq_false _ _ hcore
        · intro ts hts hsz
          subst hts
          cases hce : t0.isCE with
          | false =>
              rw [hce] at hcore
              rw [if_pos (by simp)] at hcore
              exact skyCoordOfList_merged_eq_false _ _ hcore
          | true =>
              rw [hce] at hcore
              rw [if_neg (by simp)] at hcore
              dsimp only at hcore
              rw [if_pos hsz] at hcore
              exact skyCoordOfList_merged_eq_false _ _ hcore
        · intro hce ts hts hsz
          subst hts
          rw [hce] at hcore
          rw [if_neg (by simp)] at hcore
          dsimp only at hcore
          rw [if_neg hsz] at hcore
          cases hm : mergeCoords ext.to_icrs coords with
          | error e => rw [hm] at hcore; exact absurd hcore (by simp)
          | ok m =>
              rw [hm] at hcore
              simp only [Except.ok.injEq] at hcore
              rw [← hcore]

/-- Witness for the amended C6: a single non-CE fixed target broadcast over
two times takes the direct return (`merged = false`). -/
theorem c6_amended_fast_path_requires_single_target_witness :
    get_skycoord extDefault (.single (.fixed none coordA)) (some time2) none =
      .ok ⟨[coordA, coordA], false⟩ ∧
    (⟨[coordA, coordA], false⟩ : ResolveResult).merged = false :=
  ⟨rfl,
   ((c6_amended_fast_path_requires_single_target extDefault
        (.single (.fixed none coordA)) (some time2) none
        ⟨[coordA, coordA], false⟩ rfl).2
      (.fixed none coordA) [] rfl rfl).1 rfl⟩

/-! ## Claim C3 -/

/-- In the element-wise regime (`target_size ≠ 1` and `times.size ≠ 1`) one
iteration of the dispatch loop evaluates its target with the scalar time
`times[itarget]` and appends exactly one coordinate. -/
theorem evalTarget_scalar_pair (ext : Ext) (obs : Option Observer) (tm : Time)
    (n i : Nat) (t : TargetItem) (hn : n ≠ 1) (hs : tm.size ≠ 1) :
    evalTarget ext (some tm) obs n i t =
      match pairEval ext obs t (tm.item i) with
      | .error e => .error e
      | .ok c => .ok [c] := by
  have hs2 : tm.vals.length ≠ 1 := hs
  cases t <;>
    (try cases obs) <;>
    simp [evalTarget, pairEval, Time.item, Time.size, hn, hs2]

/-- The dispatch loop in the element-wise regime equals the index-paired
evaluation list: target `i` is evaluated with time element `i`. -/
theorem collectAux_eq_pairListAux (ext : Ext) (obs : Option Observer)
    (tm : Time) (n : Nat) (hn : n ≠ 1) (hs : tm.size ≠ 1) :
    ∀ (l : List TargetItem) (i : Nat),
      collectAux ext (some tm) obs n i l = pairListAux ext obs tm i l := by
  intro l
  induction l with
  | nil => intro i; rfl
  | cons t rest ih =>
      intro i
      unfold collectAux pairListAux
      rw [evalTarget_scalar_pair ext obs tm n i t hn hs]
      cases hpe : pairEval ext obs t (tm.item i) with
      | error e => rfl
      | ok c =>
          dsimp only
          rw [ih (i + 1)]
          cases hrest : pairListAux ext obs tm (i + 1) rest with
          | error e => rfl
          | ok more => simp

/-- The index-paired evaluation list yields one coordinate per target. -/
theorem pairListAux_ok_length (ext : Ext) (obs : Option Observer) (tm : Time) :
    ∀ (l : List TargetItem) (i : Nat) (out : List CoordLike),
      pairListAux ext obs tm i l = .ok out → out.length = l.length := by
  intro l
  induction l with
  | nil =>
      intro i out h
      simp only [pairListAux, Except.ok.injEq] at h
      simp [← h]
  | cons t rest ih =>
      intro i out h
      unfold pairListAux at h
      cases hpe : pairEval ext obs t (tm.item i) with
      | error e => rw [hpe] at h; exact absurd h (by simp)
      | ok c =>
          rw [hpe] at h
          cases hrest : pairListAux ext obs tm (i + 1) rest with
          | error e => rw [hrest] at h; exact absurd h (by simp)
          | ok more =>
              rw [hrest] at h
              simp only [Except.ok.injEq] at h
              subst h
              simp [ih (i + 1) more hrest]

/-- C3: for targets and times sequences of one equal size `N > 1` the
dispatch loop is exactly the index-paired evaluation (target `i` with time
`i` — no outer-product expansion), that pairing produces one entry per
target, and any successful `get_skycoord` result has length exactly `N`. -/
theorem c3_equal_sizes_elementwise (ext : Ext) (observer : Option Observer)
    (ts : List TargetItem) (tm : Time)
    (hlen : ts.length = tm.size) (hN : 1 < ts.length) :
    (collectCoords ext (some tm) observer ts.length ts =
      pairListAux ext observer tm 0 ts) ∧
    (∀ out, pairListAux ext observer tm 0 ts = .ok out →
      out.length = ts.length) ∧
    (∀ r, get_skycoord ext (.list ts) (some tm) observer = .ok r →
      r.coords.length = ts.length) := by
  have hn : ts.length ≠ 1 := ne_of_gt hN
  have hs : tm.size ≠ 1 := hlen ▸ hn
  refine ⟨collectAux_eq_pairListAux ext observer tm ts.length hn hs ts 0,
    fun out h => pairListAux_ok_length ext observer tm ts 0 out h, ?_⟩
  intro r hok
  unfold get_skycoord at hok
  dsimp only at hok
  rw [if_neg (by simp [TargetsArg.size, hlen])] at hok
  unfold getSkycoordCore at hok
  dsimp only at hok
  simp only [TargetsArg.size, TargetsArg.asList, collectCoords] at hok
  rw [collectAux_eq_pairListAux ext observer tm ts.length hn hs ts 0] at hok
  cases hcol : pairListAux ext observer tm 0 ts with
  | error e => rw [hcol] at hok; exact absurd hok (by simp)
  | ok cs =>
      rw [hcol] at hok
      dsimp only at hok
      rw [if_neg hn] at hok
      cases hm : mergeCoords ext.to_icrs cs with
      | error e => rw [hm] at hok; exact absurd hok (by simp)
      | ok m =>
          rw [hm] at hok
          simp only [Except.ok.injEq] at hok
          rw [← hok]
          have hml := mergeCoords_length ext.to_icrs cs m hm
          have hcl := pairListAux_ok_length ext observer tm ts 0 cs hcol
          simp [hml, hcl]

/-- Witness for C3 at two fixed targets (one angle-only, one with a
distance) and two times: the result has length 2 and the merge assigned the
sentinel to the angle-only element. -/
theorem c3_equal_sizes_elementwise_witness :
    ([TargetItem.fixed none coordA, TargetItem.fixed none coordD].length = time2.size ∧
      1 < [TargetItem.fixed none coordA, TargetItem.fixed none coordD].length) ∧
    (get_skycoord extDefault
        (.list [TargetItem.fixed none coordA, TargetItem.fixed none coordD])
        (some time2) none =
      .ok ⟨[⟨Frame.icrs, ⟨10, "deg"⟩, ⟨20, "deg"⟩, some ⟨100, "kpc"⟩⟩,
            ⟨Frame.icrs, ⟨5, "deg"⟩, ⟨6, "deg"⟩, some ⟨2, "kpc"⟩⟩], true⟩) ∧
    (⟨[⟨Frame.icrs, ⟨10, "deg"⟩, ⟨20, "deg"⟩, some ⟨100, "kpc"⟩⟩,
       ⟨Frame.icrs, ⟨5, "deg"⟩, ⟨6, "deg"⟩, some ⟨2, "kpc"⟩⟩], true⟩ :
        ResolveResult).coords.length =
      [TargetItem.fixed none coordA, TargetItem.fixed none coordD].length :=
  ⟨⟨by decide, by decide⟩, rfl,
   (c3_equal_sizes_elementwise extDefault none
      [TargetItem.fixed none coordA, TargetItem.fixed none coordD] time2
      (by decide) (by decide)).2.2 _ rfl⟩

/-! ## Claim C7 -/

/-- In the mixed case (not all positions angle-only, at least one
angle-only) the final assembly of lines 416-429 replaces every collected
distance equal to the dimensionless 1 by the 100 kpc sentinel and merges as
triples. -/
theorem assembleMerged_mixed (frame : Frame) (lons lats : List Quantity)
    (dists : List Quantity) (unitFlags : List Bool)
    (hall : unitFlags.all (fun b => b) = false)
    (hany : unitFlags.any (fun b => b) = true) :
    assembleMerged frame lons lats dists unitFlags =
      zip3Coord frame lons lats
        ((dists.map (fun d => if d = unitDistance then ⟨100, "kpc"⟩ else d)).map some) := by
  unfold assembleMerged
  rw [hall, hany]
  simp

/-- C7: whenever the frame-reconciliation merge receives a mixture of
distance-bearing and angle-only positions, the merged sequence assigns the
100 kpc sentinel distance to exactly the angle-only elements, while each
distance-bearing element keeps its own distance (its ICRS-converted
distance when the merge had to convert frames).  `hsvc` states the astropy
contract for the black-box ICRS conversion on the inputs at hand: it lands
in the ICRS frame, preserves the representation class (angle-only stays
angle-only) and never reports the dimensionless distance 1 for a
distance-bearing coordinate; `hwf` is the same astropy invariant for the
inputs (a stored distance always carries a length unit, never the bare
dimensionless 1); `hnames` says a frame's two angular component names
differ (true of every astropy frame). -/
theorem c7_mixed_distance_sentinel (to_icrs : Coord → Coord)
    (coords : List Coord)
    (hsvc : ∀ c ∈ coords, (to_icrs c).frame = Frame.icrs ∧
      (to_icrs c).dist.isNone = c.dist.isNone ∧
      (to_icrs c).dist ≠ some unitDistance)
    (hwf : ∀ c ∈ coords, c.dist ≠ some unitDistance)
    (hnames : ∀ c ∈ coords, c.frame.reprNames.1 ≠ c.frame.reprNames.2)
    (hmix1 : ∃ c ∈ coords, c.dist = none)
    (hmix2 : ∃ c ∈ coords, c.dist ≠ none) :
    mergeSky to_icrs coords =
      .ok (coords.map (fun c =>
        let e := if mergeConvert coords then to_icrs c else c
        ⟨e.frame, e.lon, e.lat,
          if c.dist = none then some ⟨100, "kpc"⟩ else e.dist⟩)) := by
  cases coords with
  | nil =>
      obtain ⟨c, hc, _⟩ := hmix1
      exact absurd hc (List.not_mem_nil c)
  | cons c0 rest =>
      have hall : ((c0 :: rest).map (fun c => c.dist.isNone)).all (fun b => b) = false := by
        obtain ⟨c, hc, hcd⟩ := hmix2
        rw [List.all_eq_false]
        exact ⟨c.dist.isNone, List.mem_map_of_mem _ hc,
          by simp [Option.isNone_iff_eq_none, hcd]⟩
      have hany : ((c0 :: rest).map (fun c => c.dist.isNone)).any (fun b => b) = true := by
        obtain ⟨c, hc, hcd⟩ := hmix1
        rw [List.any_eq_true]
        exact ⟨c.dist.isNone, List.mem_map_of_mem _ hc, by simp [hcd]⟩
      unfold mergeSky
      dsimp only
      by_cases hcv : mergeConvert (c0 :: rest) = true
      · rw [if_pos hcv]
        have hlon : mapE (fun c => skyGetattr c "ra") ((c0 :: rest).map to_icrs) =
            .ok (((c0 :: rest).map to_icrs).map Coord.lon) := by
          apply mapE_ok_of_forall
          intro c hcmem
          obtain ⟨c', hc', rfl⟩ := List.mem_map.mp hcmem
          simp [skyGetattr, (hsvc c' hc').1, Frame.reprNames]
        have hlat : mapE (fun c => skyGetattr c "dec") ((c0 :: rest).map to_icrs) =
            .ok (((c0 :: rest).map to_icrs).map Coord.lat) := by
          apply mapE_ok_of_forall
          intro c hcmem
          obtain ⟨c', hc', rfl⟩ := List.mem_map.mp hcmem
          simp [skyGetattr, (hsvc c' hc').1, Frame.reprNames]
        rw [hlon]
        dsimp only
        rw [hlat]
        dsimp only
        rw [if_pos (show ¬ _ = true by rw [hall]; simp)]
        rw [assembleMerged_mixed _ _ _ _ _ hall hany]
        simp only [List.map_map]
        rw [zip3Coord_map3]
        refine congrArg Except.ok ?_
        apply List.map_congr_left
        intro c hc
        dsimp only
        rw [if_pos hcv]
        have h1 := (hsvc c hc).1
        have h2 := (hsvc c hc).2.1
        have h3 := (hsvc c hc).2.2
        cases hd : c.dist with
        | none =>
            have hti : (to_icrs c).dist = none := by
              rw [hd] at h2
              simpa [Option.isNone_iff_eq_none] using h2
            simp [Coord.distanceAttr, Function.comp, hti, hd, h1]
        | some q =>
            have hne : (to_icrs c).dist ≠ none := by
              intro h0
              rw [hd, h0] at h2
              simp at h2
            obtain ⟨q2, hq2⟩ := Option.ne_none_iff_exists'.mp hne
            have hq2ne : q2 ≠ unitDistance := fun h => h3 (by rw [hq2, h])
            simp [Coord.distanceAttr, Function.comp, hq2, hd, h1, hq2ne]
      · rw [if_neg hcv]
        have hcvf : mergeConvert (c0 :: rest) = false := by
          cases h : mergeConvert (c0 :: rest) with
          | false => rfl
          | true => exact absurd h hcv
        have hframes : ∀ c ∈ (c0 :: rest), c.frame = c0.frame := by
          have hrest : rest.all (fun c => c.frame = c0.frame) = true := by
            unfold mergeConvert at hcvf
            simpa using hcvf
          intro c hc
          rcases List.mem_cons.mp hc with h | h
          · rw [h]
          · simpa using List.all_eq_true.mp hrest c h
        have hn0 : c0.frame.reprNames.1 ≠ c0.frame.reprNames.2 :=
          hnames c0 (List.mem_cons_self c0 rest)
        have hlon : mapE (fun c => skyGetattr c c0.frame.reprNames.1) (c0 :: rest) =
            .ok ((c0 :: rest).map Coord.lon) := by
          apply mapE_ok_of_forall
          intro c hc
          simp [skyGetattr, hframes c hc]
        have hlat : mapE (fun c => skyGetattr c c0.frame.reprNames.2) (c0 :: rest) =
            .ok ((c0 :: rest).map Coord.lat) := by
          apply mapE_ok_of_forall
          intro c hc
          have hn0s : c0.frame.reprNames.2 ≠ c0.frame.reprNames.1 := hn0.symm
          simp [skyGetattr, hframes c hc, hn0s]
        rw [hlon]
        dsimp only
        rw [hlat]
        dsimp only
        rw [if_pos (show ¬ _ = true by rw [hall]; simp)]
        rw [assembleMerged_mixed _ _ _ _ _ hall hany]
        simp only [List.map_map]
        rw [zip3Coord_map3]
        refine congrArg Except.ok ?_
        apply List.map_congr_left
        intro c hc
        dsimp only
        rw [if_neg hcv]
        have hf := hframes c hc
        cases hd : c.dist with
        | none => simp [Coord.distanceAttr, Function.comp, hd, hf]
        | some q =>
            have hqne : q ≠ unitDistance := fun h => (hwf c hc) (by rw [hd, h])
            simp [Coord.distanceAttr, Function.comp, hd, hf, hqne]

/-- Witness for C7: a non-ICRS angle-only position merged with an ICRS
distance-bearing one — the angle-only element comes back with the 100 kpc
sentinel, the other keeps its 2 kpc distance. -/
theorem c7_mixed_distance_sentinel_witness :
    ((∀ c ∈ [coordB, coordD], (extDefault.to_icrs c).frame = Frame.icrs ∧
        (extDefault.to_icrs c).dist.isNone = c.dist.isNone ∧
        (extDefault.to_icrs c).dist ≠ some unitDistance) ∧
      (∀ c ∈ [coordB, coordD], c.dist ≠ some unitDistance) ∧
      (∀ c ∈ [coordB, coordD], c.frame.reprNames.1 ≠ c.frame.reprNames.2) ∧
      (∃ c ∈ [coordB, coordD], c.dist = none) ∧
      (∃ c ∈ [coordB, coordD], c.dist ≠ none)) ∧
    mergeSky extDefault.to_icrs [coordB, coordD] =
      .ok [⟨Frame.icrs, ⟨30, "deg"⟩, ⟨40, "deg"⟩, some ⟨100, "kpc"⟩⟩,
           ⟨Frame.icrs, ⟨5, "deg"⟩, ⟨6, "deg"⟩, some ⟨2, "kpc"⟩⟩] :=
  ⟨⟨by decide, by decide, by decide, by decide, by decide⟩,
   c7_mixed_distance_sentinel extDefault.to_icrs [coordB, coordD]
     (by decide) (by decide) (by decide) (by decide) (by decide)⟩

end Astroplan
